import Mathlib

/-!
Verification of the video-translation pipeline (`src/capstone.py`).

The development shallowly embeds the pipeline's pure logic and its control
flow in Lean:

* `sanitize_filename` — the filename sanitizer (line 53–54 of the source);
* `generate_file_hash` — the MD5 content fingerprint (line 56–57), with MD5
  implemented over byte lists as natural numbers;
* `convert_video_to_audio`, `transcribe_audio`, `translate_text` — the
  fallible stages, with their external effects (ffmpeg subprocess, whisper
  model, OpenAI endpoint) injected as outcome parameters; Python exceptions
  become an explicit result type distinguishing the handled, localized
  `RuntimeError`s raised by the source from exceptions the source lets
  propagate unhandled;
* `translationsLoop` — the per-language translation loop (lines 141–155);
* `pipelineBody` / `runApp` — the orchestrating `try … except … finally`
  with the `tempfile.TemporaryDirectory` scope (lines 104–178), over an
  explicit filesystem state recording the temporary working area.
-/

namespace Capstone

/-! ## Filename sanitization (source lines 53–54)

`sanitize_filename` keeps a character iff `c.isalnum() or c in (' ', '.', '_')`
and then strips trailing whitespace (`.rstrip()`).  Python's `isalnum` is
modelled by `Char.isAlpha || Char.isDigit` (ASCII letters and digits); the
theorems below are insensitive to the exact character class. -/

/-- A character the sanitizer keeps: alphanumeric, space, dot or underscore. -/
def keepChar (c : Char) : Bool :=
  (c.isAlpha || c.isDigit) || (c = ' ' || c = '.' || c = '_')

/-- Python's `str.rstrip()` on a character list: drop trailing whitespace. -/
def rstripChars (l : List Char) : List Char :=
  (l.reverse.dropWhile Char.isWhitespace).reverse

/-- The sanitizer on character lists: filter to the allowed class, then rstrip. -/
def sanitizeList (l : List Char) : List Char :=
  rstripChars (l.filter keepChar)

/-- `sanitize_filename` from the source: keep allowed characters, strip
trailing whitespace. -/
def sanitize_filename (filename : String) : String :=
  String.mk (sanitizeList filename.data)

/-! ### Path construction (source line 120)

`video_path = Path(temp_dir) / sanitize_filename(uploaded_video.name)` joins
the sanitized name onto the working area.  A path is modelled as its list of
components; joining one component resolves `".."` to the parent directory,
and `""`/`"."` to the directory itself, as the OS resolves the pathlib path. -/

/-- Resolve joining a single component onto a base path (component list). -/
def resolveChild (base : List String) (component : String) : List String :=
  if component = ".." then base.dropLast
  else if component = "" || component = "." then base
  else base ++ [component]

/-- The joined path stays inside the base directory: the resolved path starts
with the base's components. -/
def withinBase (base : List String) (component : String) : Bool :=
  (resolveChild base component).take base.length = base

/-! ## Content fingerprint (source lines 56–57)

`generate_file_hash` is `hashlib.md5(file_content).hexdigest()`.  MD5 is
implemented here over byte lists (`List Nat`, each entry `< 256`), with
32-bit words as naturals reduced modulo `2 ^ 32`. -/

/-- Reduce to a 32-bit word. -/
def w32 (n : Nat) : Nat := n % 4294967296

/-- 32-bit addition. -/
def wadd (a b : Nat) : Nat := w32 (a + b)

/-- 32-bit bitwise complement. -/
def wnot (a : Nat) : Nat := w32 a ^^^ 4294967295

/-- 32-bit left rotation by `s` bits. -/
def rotl (x s : Nat) : Nat := w32 ((w32 x <<< s) ||| (w32 x >>> (32 - s)))

/-- The MD5 sine-derived round constants. -/
def md5K : List Nat :=
  [0xd76aa478, 0xe8c7b756, 0x242070db, 0xc1bdceee,
   0xf57c0faf, 0x4787c62a, 0xa8304613, 0xfd469501,
   0x698098d8, 0x8b44f7af, 0xffff5bb1, 0x895cd7be,
   0x6b901122, 0xfd987193, 0xa679438e, 0x49b40821,
   0xf61e2562, 0xc040b340, 0x265e5a51, 0xe9b6c7aa,
   0xd62f105d, 0x02441453, 0xd8a1e681, 0xe7d3fbc8,
   0x21e1cde6, 0xc33707d6, 0xf4d50d87, 0x455a14ed,
   0xa9e3e905, 0xfcefa3f8, 0x676f02d9, 0x8d2a4c8a,
   0xfffa3942, 0x8771f681, 0x6d9d6122, 0xfde5380c,
   0xa4beea44, 0x4bdecfa9, 0xf6bb4b60, 0xbebfbc70,
   0x289b7ec6, 0xeaa127fa, 0xd4ef3085, 0x04881d05,
   0xd9d4d039, 0xe6db99e5, 0x1fa27cf8, 0xc4ac5665,
   0xf4292244, 0x432aff97, 0xab9423a7, 0xfc93a039,
   0x655b59c3, 0x8f0ccc92, 0xffeff47d, 0x85845dd1,
   0x6fa87e4f, 0xfe2ce6e0, 0xa3014314, 0x4e0811a1,
   0xf7537e82, 0xbd3af235, 0x2ad7d2bb, 0xeb86d391]

/-- The MD5 per-round left-rotation amounts. -/
def md5S : List Nat :=
  [7, 12, 17, 22, 7, 12, 17, 22, 7, 12, 17, 22, 7, 12, 17, 22,
   5, 9, 14, 20, 5, 9, 14, 20, 5, 9, 14, 20, 5, 9, 14, 20,
   4, 11, 16, 23, 4, 11, 16, 23, 4, 11, 16, 23, 4, 11, 16, 23,
   6, 10, 15, 21, 6, 10, 15, 21, 6, 10, 15, 21, 6, 10, 15, 21]

/-- One MD5 round: state `(A, B, C, D)`, message words `M`, round index `i`. -/
def md5Round (M : List Nat) (st : Nat × Nat × Nat × Nat) (i : Nat) :
    Nat × Nat × Nat × Nat :=
  let A := st.1; let B := st.2.1; let C := st.2.2.1; let D := st.2.2.2
  let F :=
    if i < 16 then (B &&& C) ||| (wnot B &&& D)
    else if i < 32 then (D &&& B) ||| (wnot D &&& C)
    else if i < 48 then (B ^^^ C) ^^^ D
    else C ^^^ (B ||| wnot D)
  let g :=
    if i < 16 then i
    else if i < 32 then (5 * i + 1) % 16
    else if i < 48 then (3 * i + 5) % 16
    else (7 * i) % 16
  let mixed := wadd (wadd (wadd F A) (md5K.getD i 0)) (M.getD g 0)
  (D, wadd B (rotl mixed (md5S.getD i 0)), B, C)

/-- Process one 512-bit chunk (given as 16 little-endian words). -/
def md5Chunk (st : Nat × Nat × Nat × Nat) (M : List Nat) :
    Nat × Nat × Nat × Nat :=
  let r := (List.range 64).foldl (md5Round M) st
  (wadd st.1 r.1, wadd st.2.1 r.2.1, wadd st.2.2.1 r.2.2.1,
   wadd st.2.2.2 r.2.2.2)

/-- MD5 padding: append `0x80`, zero-pad to 56 mod 64 bytes, then the
original length in bits as 8 little-endian bytes. -/
def padMessage (msg : List Nat) : List Nat :=
  let z := (120 - (msg.length + 1) % 64) % 64
  let bitLen := (8 * msg.length) % (2 ^ 64)
  msg ++ [0x80] ++ List.replicate z 0 ++
    (List.range 8).map (fun i => (bitLen >>> (8 * i)) % 256)

/-- Split a byte list into 64-byte chunks. -/
def chunks64 : List Nat → List (List Nat)
  | [] => []
  | b :: rest =>
    (b :: rest).take 64 :: chunks64 ((b :: rest).drop 64)
termination_by l => l.length
decreasing_by simp; omega

/-- Read 16 little-endian 32-bit words out of a 64-byte chunk. -/
def toWords (chunk : List Nat) : List Nat :=
  (List.range 16).map (fun j =>
    chunk.getD (4 * j) 0 + 256 * chunk.getD (4 * j + 1) 0 +
    65536 * chunk.getD (4 * j + 2) 0 + 16777216 * chunk.getD (4 * j + 3) 0)

/-- The MD5 initialization vector. -/
def md5IV : Nat × Nat × Nat × Nat :=
  (0x67452301, 0xefcdab89, 0x98badcfe, 0x10325476)

/-- A 32-bit word as 4 little-endian bytes. -/
def wordLE (x : Nat) : List Nat :=
  [x % 256, (x >>> 8) % 256, (x >>> 16) % 256, (x >>> 24) % 256]

/-- The 16-byte MD5 digest of a byte list. -/
def md5Bytes (msg : List Nat) : List Nat :=
  let r := (chunks64 (padMessage msg)).foldl
    (fun st ch => md5Chunk st (toWords ch)) md5IV
  wordLE r.1 ++ wordLE r.2.1 ++ wordLE r.2.2.1 ++ wordLE r.2.2.2

/-- Lowercase hexadecimal digit. -/
def hexChar (n : Nat) : Char :=
  Char.ofNat (if n < 10 then 48 + n else 87 + n)

/-- A byte as two lowercase hex characters. -/
def byteHex (b : Nat) : List Char :=
  [hexChar (b / 16 % 16), hexChar (b % 16)]

/-- `generate_file_hash` from the source: the MD5 hex digest of the file
content.  A pure function of the bytes — the only effect in the source is
the hash computation itself. -/
def generate_file_hash (file_content : List Nat) : String :=
  String.mk (((md5Bytes file_content).map byteHex).flatten)

/-! ## Python exceptions and the fallible stages

A call into a stage either returns a value, raises the localized
`RuntimeError` that the stage's own `except` handler produces, or raises an
exception the stage does not handle, which propagates to the top-level
handler unchanged. -/

/-- Outcome of a Python call as seen by its caller. -/
inductive PyResult (α : Type) where
  /-- Normal return. -/
  | ok (a : α)
  /-- The stage's handler raised `RuntimeError` with a localized message. -/
  | runtimeError (userMsg : String)
  /-- An exception the stage does not catch propagates with its raw text. -/
  | uncaught (exc : String)
deriving DecidableEq

/-- `true` iff the call returned normally. -/
def isOkResult {α : Type} : PyResult α → Bool
  | .ok _ => true
  | _ => false

/-! ### Media transcoder (source lines 60–66)

`convert_video_to_audio` runs ffmpeg with `check=True` and catches only
`subprocess.CalledProcessError` (non-zero exit), logging the tool's stderr
and raising a localized `RuntimeError`.  A missing or non-executable tool
raises `FileNotFoundError`/`PermissionError` from `subprocess.run`, which
the function does not catch. -/

/-- Outcome of the ffmpeg subprocess invocation. -/
inductive ToolOutcome where
  /-- The tool ran and exited 0. -/
  | success
  /-- The tool ran and exited non-zero with diagnostics on stderr. -/
  | calledProcessError (stderr : String)
  /-- The tool could not be located or executed. -/
  | osError (exc : String)
deriving DecidableEq

/-- The localized transcode stage-failure message from the source. -/
def transcodeFailMsg : String := "Video ses dönüşümü başarısız oldu."

/-- `convert_video_to_audio` from the source: the call result together with
the log lines the function emits (`logging.error` of the tool's stderr). -/
def convert_video_to_audio (ffmpeg : ToolOutcome) : PyResult Unit × List String :=
  match ffmpeg with
  | .success => (.ok (), [])
  | .calledProcessError stderr =>
    (.runtimeError transcodeFailMsg, ["FFmpeg error: " ++ stderr])
  | .osError exc => (.uncaught exc, [])

/-- `true` iff the result is the handled, localized transcode stage failure
(the `RuntimeError` the source raises for a failed conversion). -/
def isTranscodeStageError : PyResult Unit → Bool
  | .runtimeError _ => true
  | _ => false

/-! ### Transcription engine (source lines 68–73) -/

/-- A transcription result: text plus optional confidence metadata. -/
structure Transcript where
  text : String
  confidence : Option Nat
deriving DecidableEq

/-- `transcribe_audio` from the source: any model exception is logged and
re-raised as a localized `RuntimeError`. -/
def transcribe_audio (whisperOutcome : Except String Transcript) :
    PyResult Transcript × List String :=
  match whisperOutcome with
  | .ok t => (.ok t, [])
  | .error e =>
    (.runtimeError "Ses dosyası transkripsiyon işlemi başarısız oldu.",
     ["Transcription error: " ++ e])

/-! ### Remote translation call (source lines 75–87) -/

/-- One message of the chat request. -/
structure ChatRequestMessage where
  role : String
  content : String
deriving DecidableEq

/-- A message of the remote response. -/
structure ChatMessage where
  content : String
deriving DecidableEq

/-- One completion choice of the remote response. -/
structure ChatChoice where
  message : ChatMessage
deriving DecidableEq

/-- The remote response: a list of completion choices. -/
structure ChatResponse where
  choices : List ChatChoice
deriving DecidableEq

/-- Outcome of `openai.ChatCompletion.create`. -/
inductive CallOutcome where
  /-- The endpoint answered. -/
  | response (r : ChatResponse)
  /-- The call raised `openai.error.OpenAIError` (auth, rate limit, network). -/
  | openaiError (detail : String)
deriving DecidableEq

/-- The request messages `translate_text` builds: the language-directive
system instruction plus the user text. -/
def requestMessages (text target_lang : String) : List ChatRequestMessage :=
  [⟨"system", "Translate the following text to " ++ target_lang ++ "."⟩,
   ⟨"user", text⟩]

/-- `translate_text` from the source.  `create` is the remote endpoint; the
function returns `response.choices[0].message.content`, and catches only
`OpenAIError`, turning it into a localized per-language `RuntimeError`.  An
empty `choices` list would raise an unhandled `IndexError`. -/
def translate_text (create : List ChatRequestMessage → CallOutcome)
    (text target_lang : String) : PyResult String :=
  match create (requestMessages text target_lang) with
  | .openaiError _ =>
    .runtimeError (target_lang ++ " diline çeviri sırasında bir hata oluştu.")
  | .response r =>
    match r.choices with
    | [] => .uncaught "IndexError: list index out of range"
    | c :: _ => .ok c.message.content

/-! ## The translation fan-out loop (source lines 141–155)

The loop iterates over `selected_languages` in the caller's order; for each
language it looks up the ISO code in `SUPPORTED_LANGUAGES` (binding it to a
variable that is never used afterwards), calls `translate_text` with the
*display name*, and stores the result in the `translations` dict keyed by
the display name.  A raised exception aborts the loop. -/

/-- `SUPPORTED_LANGUAGES` from the source (display name → ISO code). -/
def SUPPORTED_LANGUAGES : List (String × String) :=
  [("Türkçe", "tr"), ("İngilizce", "en"), ("Fransızça", "fr"),
   ("Almanca", "de"), ("İspanyolca", "es"), ("İtalyanca", "it")]

/-- Python dict lookup `d[k]` as an option (`none` models `KeyError`). -/
def lookupDict (d : List (String × String)) (k : String) : Option String :=
  (d.find? (fun p => p.1 = k)).map Prod.snd

/-- Python dict assignment `d[k] = v` on an insertion-ordered
association list: update in place if the key exists, else append. -/
def dictInsert (d : List (String × String)) (k v : String) :
    List (String × String) :=
  if (d.map Prod.fst).contains k then
    d.map (fun p => if p.1 = k then (p.1, v) else p)
  else d ++ [(k, v)]

/-- How the translation loop terminated. -/
inductive LoopExit where
  /-- Every selected language was processed. -/
  | completed
  /-- `SUPPORTED_LANGUAGES[lang]` raised `KeyError` (unhandled). -/
  | keyError (lang : String)
  /-- `translate_text` raised; the loop aborted with that exception. -/
  | raised (msg : String)
deriving DecidableEq

/-- State left by the translation loop: the `translations` dict, the ordered
list of `target_lang` arguments actually passed to `translate_text`, and the
way the loop exited. -/
structure FanOutState where
  translations : List (String × String)
  calls : List String
  exit : LoopExit
deriving DecidableEq

/-- The `for lang in selected_languages` loop from the source, with the
dict (`acc`) and the call trace (`calls`) threaded explicitly. -/
def translationsLoop (codes : List (String × String))
    (create : List ChatRequestMessage → CallOutcome) (transcript : String) :
    List String → List (String × String) → List String → FanOutState
  | [], acc, calls => ⟨acc, calls, .completed⟩
  | lang :: rest, acc, calls =>
    match lookupDict codes lang with
    | none => ⟨acc, calls, .keyError lang⟩
    | some _code =>
      match translate_text create transcript lang with
      | .ok t =>
        translationsLoop codes create transcript rest
          (dictInsert acc lang t) (calls ++ [lang])
      | .runtimeError m => ⟨acc, calls ++ [lang], .raised m⟩
      | .uncaught m => ⟨acc, calls ++ [lang], .raised m⟩

/-- The fan-out as invoked by the pipeline: empty dict, empty call trace. -/
def fan_out (codes : List (String × String))
    (create : List ChatRequestMessage → CallOutcome) (transcript : String)
    (langs : List String) : FanOutState :=
  translationsLoop codes create transcript langs [] []

/-- `true` iff `translate_text` would return normally for this language. -/
def langSucceeds (create : List ChatRequestMessage → CallOutcome)
    (transcript lang : String) : Bool :=
  isOkResult (translate_text create transcript lang)

/-! ## The pipeline orchestrator (source lines 104–178)

The upload-processing block wraps the whole pipeline in
`try: with tempfile.TemporaryDirectory() as temp_dir: … except Exception: …
finally: …`.  The filesystem is modelled by whether the scoped working area
exists and which files it holds; `tempfile.TemporaryDirectory.__exit__`
removes the directory and its contents on every exit of the `with` block,
normal or exceptional. -/

/-- The filesystem as the pipeline sees it: `none` = the scoped temporary
working area is absent, `some files` = it exists with the given contents. -/
structure FS where
  workingArea : Option (List String)
deriving DecidableEq

/-- Everything injected into one run: upload data, language selection,
clock readings, and the outcome of each external effect. -/
structure Env where
  videoName : String
  videoBytes : List Nat
  selectedLanguages : List String
  startClock : Nat
  endClock : Nat
  /-- `some exc`: writing the staged video file raises (internal fault). -/
  stagingFault : Option String
  ffmpeg : ToolOutcome
  whisperOutcome : Except String Transcript
  create : List ChatRequestMessage → CallOutcome

/-- How the body of the `with` block (steps: stage file, transcode,
transcribe, translate) finishes. -/
inductive BodyExit where
  /-- All stages succeeded; carries the fan-out state and transcript. -/
  | success (fan : FanOutState) (transcript : Transcript)
  /-- An exception left the `with` block and reaches the outer handler. -/
  | raisedError (msg : String)
deriving DecidableEq

/-- The body of the `with` block, run inside an existing working area. -/
def stagesBody (env : Env) (fs : FS) : BodyExit × FS :=
  match env.stagingFault with
  | some exc => (.raisedError exc, fs)
  | none =>
    let videoFile := sanitize_filename env.videoName
    let fs1 : FS := ⟨fs.workingArea.map (fun files => files ++ [videoFile])⟩
    let _file_hash := generate_file_hash env.videoBytes
    match convert_video_to_audio env.ffmpeg with
    | (.ok _, _) =>
      let fs2 : FS := ⟨fs1.workingArea.map (fun files => files ++ [videoFile ++ ".mp3"])⟩
      match transcribe_audio env.whisperOutcome with
      | (.ok t, _) =>
        let fan := fan_out SUPPORTED_LANGUAGES env.create t.text env.selectedLanguages
        match fan.exit with
        | .completed => (.success fan t, fs2)
        | .keyError lang => (.raisedError ("KeyError: " ++ lang), fs2)
        | .raised m => (.raisedError m, fs2)
      | (.runtimeError m, _) => (.raisedError m, fs2)
      | (.uncaught m, _) => (.raisedError m, fs2)
    | (.runtimeError m, _) => (.raisedError m, fs1)
    | (.uncaught m, _) => (.raisedError m, fs1)

/-- `with tempfile.TemporaryDirectory() as temp_dir:` — create the working
area, run the body, then remove the directory and all its contents on every
exit path, normal or exceptional. -/
def withTemporaryDirectory (body : FS → BodyExit × FS) : BodyExit × FS :=
  let created : FS := ⟨some []⟩
  let r := body created
  (r.1, ⟨none⟩)

/-- The whole `try … with … except … finally` block. -/
def pipelineBody (env : Env) : BodyExit × FS :=
  withTemporaryDirectory (stagesBody env)

/-- What one run leaves behind for the caller/UI. -/
structure RunReport where
  /-- `st.success` was reached. -/
  succeeded : Bool
  /-- The `st.error` text of the outer handler, if any exception arrived. -/
  displayedError : Option String
  /-- The fan-out state if the run completed. -/
  fanState : Option FanOutState
  /-- "Toplam İşlem Süresi" from the `finally` block. -/
  elapsed : Nat
  /-- The filesystem after the run. -/
  fsFinal : FS
deriving DecidableEq

/-- One full run of the upload-processing block of the source: the `try`
block around the `with` scope, the `except Exception` handler rendering the
error, and the `finally` block computing `end_time - start_time`. -/
def runApp (env : Env) : RunReport :=
  let start_time := env.startClock
  let r := pipelineBody env
  let end_time := env.endClock
  match r.1 with
  | .success fan _t =>
    ⟨true, none, some fan, end_time - start_time, r.2⟩
  | .raisedError m =>
    ⟨false, some ("İşlem sırasında bir hata oluştu: " ++ m), none,
     end_time - start_time, r.2⟩

/-! ## Lemmas about the sanitizer -/

theorem dropWhile_dropWhile {α : Type} (p : α → Bool) (l : List α) :
    (l.dropWhile p).dropWhile p = l.dropWhile p := by
  induction l with
  | nil => rfl
  | cons a t ih =>
    by_cases h : p a = true
    · simp [List.dropWhile, h, ih]
    · simp [List.dropWhile, h]

theorem mem_rstripChars {c : Char} {l : List Char} (h : c ∈ rstripChars l) :
    c ∈ l := by
  unfold rstripChars at h
  rw [List.mem_reverse] at h
  have := (l.reverse.dropWhile_sublist Char.isWhitespace).mem h
  rwa [List.mem_reverse] at this

theorem rstripChars_idem (l : List Char) :
    rstripChars (rstripChars l) = rstripChars l := by
  unfold rstripChars
  rw [List.reverse_reverse, dropWhile_dropWhile]

theorem sanitizeList_subset_keep {c : Char} {l : List Char}
    (h : c ∈ sanitizeList l) : keepChar c = true := by
  unfold sanitizeList at h
  exact (List.mem_filter.mp (mem_rstripChars h)).2

theorem sanitizeList_idem (l : List Char) :
    sanitizeList (sanitizeList l) = sanitizeList l := by
  unfold sanitizeList
  rw [List.filter_eq_self.mpr, rstripChars_idem]
  intro c hc
  exact sanitizeList_subset_keep hc


/-! ## Lemmas about the fan-out loop -/

theorem dictInsert_keys_of_not_mem {d : List (String × String)} {k : String}
    (v : String) (h : k ∉ d.map Prod.fst) :
    (dictInsert d k v).map Prod.fst = d.map Prod.fst ++ [k] := by
  unfold dictInsert
  rw [if_neg]
  · simp
  · simpa using h

/-- Structural description of the loop under a well-formed selection (every
selected language present in the mapping, no duplicates, no key already in
the accumulator): the dict keys extend the accumulator's keys by exactly the
longest prefix of successfully translated languages; the loop completes iff
every language's translation succeeds; and a completed loop has called
`translate_text` once per language. -/
theorem translationsLoop_spec (codes : List (String × String))
    (create : List ChatRequestMessage → CallOutcome) (tx : String) :
    ∀ (langs : List String) (acc : List (String × String)) (calls : List String),
      (∀ l ∈ langs, (lookupDict codes l).isSome = true) →
      langs.Nodup →
      (∀ l ∈ langs, l ∉ acc.map Prod.fst) →
      (translationsLoop codes create tx langs acc calls).translations.map Prod.fst
          = acc.map Prod.fst ++ langs.takeWhile (langSucceeds create tx) ∧
        ((translationsLoop codes create tx langs acc calls).exit = .completed ↔
          ∀ l ∈ langs, langSucceeds create tx l = true) ∧
        ((translationsLoop codes create tx langs acc calls).exit = .completed →
          (translationsLoop codes create tx langs acc calls).calls = calls ++ langs) := by
  intro langs
  induction langs with
  | nil =>
    intro acc calls _ _ _
    simp [translationsLoop]
  | cons lang rest ih =>
    intro acc calls hkeys hnodup hdisj
    obtain ⟨code, hcode⟩ :=
      Option.isSome_iff_exists.mp (hkeys lang (by simp))
    have hlangrest : lang ∉ rest := (List.nodup_cons.mp hnodup).1
    cases htr : translate_text create tx lang with
    | ok t =>
      have hsucc : langSucceeds create tx lang = true := by
        simp [langSucceeds, isOkResult, htr]
      have hk : lang ∉ acc.map Prod.fst := hdisj lang (by simp)
      have hkeysInsert := dictInsert_keys_of_not_mem (d := acc) (k := lang) t hk
      have ihr := ih (dictInsert acc lang t) (calls ++ [lang])
        (fun l hl => hkeys l (by simp [hl]))
        (List.nodup_cons.mp hnodup).2
        (by
          intro l hl
          rw [hkeysInsert]
          simp only [List.mem_append, List.mem_singleton]
          push_neg
          exact ⟨hdisj l (by simp [hl]), fun he => hlangrest (he ▸ hl)⟩)
      refine ⟨?_, ?_, ?_⟩
      · rw [show translationsLoop codes create tx (lang :: rest) acc calls
              = translationsLoop codes create tx rest (dictInsert acc lang t) (calls ++ [lang]) by
            simp [translationsLoop, hcode, htr]]
        rw [ihr.1, hkeysInsert, List.takeWhile_cons_of_pos hsucc]
        simp
      · rw [show translationsLoop codes create tx (lang :: rest) acc calls
              = translationsLoop codes create tx rest (dictInsert acc lang t) (calls ++ [lang]) by
            simp [translationsLoop, hcode, htr]]
        rw [ihr.2.1]
        simp [hsucc]
      · rw [show translationsLoop codes create tx (lang :: rest) acc calls
              = translationsLoop codes create tx rest (dictInsert acc lang t) (calls ++ [lang]) by
            simp [translationsLoop, hcode, htr]]
        intro hc
        rw [ihr.2.2 hc]
        simp
    | runtimeError m =>
      have hfail : langSucceeds create tx lang = false := by
        simp [langSucceeds, isOkResult, htr]
      refine ⟨?_, ?_, ?_⟩ <;>
        simp [translationsLoop, hcode, htr, List.takeWhile_cons_of_neg, hfail]
    | uncaught m =>
      have hfail : langSucceeds create tx lang = false := by
        simp [langSucceeds, isOkResult, htr]
      refine ⟨?_, ?_, ?_⟩ <;>
        simp [translationsLoop, hcode, htr, List.takeWhile_cons_of_neg, hfail]

/-- The call trace is always some initial segment of the selected languages:
`translate_text` is invoked at most once per language, in the caller's
order. -/
theorem translationsLoop_calls_take (codes : List (String × String))
    (create : List ChatRequestMessage → CallOutcome) (tx : String) :
    ∀ (langs : List String) (acc : List (String × String)) (calls : List String),
      ∃ k, k ≤ langs.length ∧
        (translationsLoop codes create tx langs acc calls).calls
          = calls ++ langs.take k := by
  intro langs
  induction langs with
  | nil =>
    intro acc calls
    exact ⟨0, by simp [translationsLoop]⟩
  | cons lang rest ih =>
    intro acc calls
    cases hcode : lookupDict codes lang with
    | none => exact ⟨0, by simp [translationsLoop, hcode]⟩
    | some code =>
      cases htr : translate_text create tx lang with
      | ok t =>
        obtain ⟨k, hk, hcalls⟩ := ih (dictInsert acc lang t) (calls ++ [lang])
        refine ⟨k + 1, by simpa using Nat.succ_le_succ hk, ?_⟩
        rw [show translationsLoop codes create tx (lang :: rest) acc calls
              = translationsLoop codes create tx rest (dictInsert acc lang t) (calls ++ [lang]) by
            simp [translationsLoop, hcode, htr]]
        rw [hcalls]
        simp
      | runtimeError m =>
        exact ⟨1, by simp, by simp [translationsLoop, hcode, htr]⟩
      | uncaught m =>
        exact ⟨1, by simp, by simp [translationsLoop, hcode, htr]⟩

/-- The loop's behavior does not depend on the ISO code values of the
mapping: any two mappings defining all the selected languages yield the
same loop state. -/
theorem translationsLoop_codes_invariant
    (codes₁ codes₂ : List (String × String))
    (create : List ChatRequestMessage → CallOutcome) (tx : String) :
    ∀ (langs : List String) (acc : List (String × String)) (calls : List String),
      (∀ l ∈ langs,
        (lookupDict codes₁ l).isSome = true ∧ (lookupDict codes₂ l).isSome = true) →
      translationsLoop codes₁ create tx langs acc calls
        = translationsLoop codes₂ create tx langs acc calls := by
  intro langs
  induction langs with
  | nil => intro acc calls _; rfl
  | cons lang rest ih =>
    intro acc calls h
    obtain ⟨h1, h2⟩ := h lang (by simp)
    obtain ⟨c1, hc1⟩ := Option.isSome_iff_exists.mp h1
    obtain ⟨c2, hc2⟩ := Option.isSome_iff_exists.mp h2
    cases htr : translate_text create tx lang with
    | ok t =>
      rw [show translationsLoop codes₁ create tx (lang :: rest) acc calls
            = translationsLoop codes₁ create tx rest (dictInsert acc lang t) (calls ++ [lang]) by
          simp [translationsLoop, hc1, htr]]
      rw [show translationsLoop codes₂ create tx (lang :: rest) acc calls
            = translationsLoop codes₂ create tx rest (dictInsert acc lang t) (calls ++ [lang]) by
          simp [translationsLoop, hc2, htr]]
      exact ih _ _ (fun l hl => h l (by simp [hl]))
    | runtimeError m =>
      simp [translationsLoop, hc1, hc2, htr]
    | uncaught m =>
      simp [translationsLoop, hc1, hc2, htr]

/-! ## Lemmas about the fingerprint -/

theorem md5Bytes_length (msg : List Nat) : (md5Bytes msg).length = 16 := by
  unfold md5Bytes
  simp [wordLE]

theorem flatten_byteHex_length (l : List Nat) :
    ((l.map byteHex).flatten).length = 2 * l.length := by
  induction l with
  | nil => simp
  | cons b t ih =>
    simp [byteHex, ih]
    omega

theorem generate_file_hash_data_length (b : List Nat) :
    (generate_file_hash b).data.length = 32 := by
  show ((md5Bytes b).map byteHex).flatten.length = 32
  rw [flatten_byteHex_length, md5Bytes_length]

theorem takeWhile_mem {α : Type} {p : α → Bool} {l : List α} {x : α}
    (h : x ∈ l.takeWhile p) : x ∈ l :=
  (l.takeWhile_sublist p).mem h

/-! ## The claims -/

/-- C1, counterexample: with two requested languages and a remote endpoint
that fails, the fan-out returns zero results — not one per requested
language — and aborts after invoking translate only for the first
language, propagating that language's error.  This refutes the claim that
the fan-out returns a result for every requested language regardless of
how many individual translation calls fail. -/
theorem fan_out_short_circuit_counterexample :
    (fan_out SUPPORTED_LANGUAGES (fun _ => CallOutcome.openaiError "rate limit")
        "hello" ["Türkçe", "İngilizce"]).translations.length = 0 ∧
      (fan_out SUPPORTED_LANGUAGES (fun _ => CallOutcome.openaiError "rate limit")
        "hello" ["Türkçe", "İngilizce"]).calls = ["Türkçe"] ∧
      (fan_out SUPPORTED_LANGUAGES (fun _ => CallOutcome.openaiError "rate limit")
        "hello" ["Türkçe", "İngilizce"]).exit
        = LoopExit.raised "Türkçe diline çeviri sırasında bir hata oluştu." := by
  decide

/-- C1 (amended): for every selection of distinct supported languages, the
fan-out invokes translate at most once per language, in the requested order
(the call trace is an initial segment of the request); it completes exactly
when every per-language call succeeds, and then it has invoked translate
once per language and returns exactly one result per requested language, in
the requested order.  The first failing language aborts the fan-out with
that language's error, so no results are produced for the remaining
languages. -/
theorem fan_out_results_amended (codes : List (String × String))
    (create : List ChatRequestMessage → CallOutcome) (tx : String)
    (langs : List String)
    (hkeys : ∀ l ∈ langs, (lookupDict codes l).isSome = true)
    (hnodup : langs.Nodup) :
    (∃ k, k ≤ langs.length ∧ (fan_out codes create tx langs).calls = langs.take k) ∧
      ((fan_out codes create tx langs).exit = .completed ↔
        ∀ l ∈ langs, langSucceeds create tx l = true) ∧
      ((fan_out codes create tx langs).exit = .completed →
        (fan_out codes create tx langs).translations.map Prod.fst = langs ∧
          (fan_out codes create tx langs).calls = langs) := by
  obtain ⟨hkeysEq, hiff, hcalls⟩ :=
    translationsLoop_spec codes create tx langs [] [] hkeys hnodup (by simp)
  obtain ⟨k, hk, hck⟩ := translationsLoop_calls_take codes create tx langs [] []
  refine ⟨⟨k, hk, by simpa [fan_out] using hck⟩, hiff, fun hc => ⟨?_, by simpa using hcalls hc⟩⟩
  have hall := hiff.mp hc
  calc (fan_out codes create tx langs).translations.map Prod.fst
      = [] ++ langs.takeWhile (langSucceeds create tx) := hkeysEq
    _ = langs := by
        rw [List.nil_append, List.takeWhile_eq_self_iff.mpr hall]

/-- C1 witness: a concrete all-success run over two supported languages
yields one result per language, in the requested order. -/
theorem fan_out_results_amended_witness :
    (fan_out SUPPORTED_LANGUAGES
        (fun _ => CallOutcome.response ⟨[⟨⟨"merhaba"⟩⟩]⟩) "hi"
        ["Türkçe", "İngilizce"]).translations.map Prod.fst
      = ["Türkçe", "İngilizce"] :=
  ((fan_out_results_amended SUPPORTED_LANGUAGES
      (fun _ => CallOutcome.response ⟨[⟨⟨"merhaba"⟩⟩]⟩) "hi"
      ["Türkçe", "İngilizce"] (by decide) (by decide)).2.2 (by decide)).1

/-- C2: for every pipeline run and every exit path — success, transcode
failure (non-zero exit or missing tool), transcription failure, translation
failure (including an unsupported-language `KeyError`), or an injected
internal fault while staging the file — the scoped temporary working area
and all of its contents are absent from the filesystem after the run. -/
theorem workingArea_absent_after_run (env : Env) :
    (runApp env).fsFinal.workingArea = none := by
  cases h : (stagesBody env ⟨some []⟩).1 <;>
    simp [runApp, pipelineBody, withTemporaryDirectory, h]

/-- C3, counterexample: the path-traversal filename `"../"` sanitizes to
`".."` — the sanitizer keeps dots — and joining that onto the working area
resolves to the working area's parent directory, escaping it.  This refutes
the claim that no sanitized filename yields a path escaping the working
area. -/
theorem sanitize_dotdot_escape_counterexample :
    sanitize_filename "../" = ".." ∧
      withinBase ["tmp", "run1"] (sanitize_filename "../") = false := by
  decide

/-- C3 (amended): sanitization rewrites every filename to contain only
alphanumerics, spaces, dots and underscores before it is used as a path
component, and a filename consisting entirely of disallowed characters
sanitizes to the empty string; but path containment has one exception: a
sanitized filename escapes the working area exactly when it is `".."`
(reachable, e.g. from input `"../"`); every other sanitized filename yields
a path inside the working area. -/
theorem sanitize_filename_safety_amended (filename : String) (base : List String) :
    (∀ c ∈ (sanitize_filename filename).data, keepChar c = true) ∧
      ((∀ c ∈ filename.data, keepChar c = false) → sanitize_filename filename = "") ∧
      (sanitize_filename filename ≠ ".." →
        withinBase base (sanitize_filename filename) = true) := by
  refine ⟨fun c hc => sanitizeList_subset_keep hc, fun hall => ?_, fun hne => ?_⟩
  · show String.mk (sanitizeList filename.data) = ""
    have : filename.data.filter keepChar = [] :=
      List.filter_eq_nil_iff.mpr (fun c hc => by simp [hall c hc])
    simp [sanitizeList, this, rstripChars]
  · by_cases h1 : sanitize_filename filename = ""
    · simp [withinBase, resolveChild, hne, h1]
    · by_cases h2 : sanitize_filename filename = "."
      · simp [withinBase, resolveChild, hne, h2]
      · simp [withinBase, resolveChild, hne, h1, h2, List.take_left]

/-- C3 witness: an all-disallowed filename sanitizes to the empty string,
and an ordinary filename stays inside the working area. -/
theorem sanitize_filename_safety_amended_witness :
    sanitize_filename "**" = "" ∧
      withinBase ["tmp", "run1"] (sanitize_filename "video.mp4") = true :=
  ⟨(sanitize_filename_safety_amended "**" ["tmp", "run1"]).2.1 (by decide),
   (sanitize_filename_safety_amended "video.mp4" ["tmp", "run1"]).2.2 (by decide)⟩

/-- C4, counterexample: when the transcoding tool cannot be located, the
raised `FileNotFoundError` is not caught by `convert_video_to_audio` — it
propagates unclassified instead of becoming the localized transcode
stage-failure `RuntimeError`.  This refutes the "exactly when the tool
exits non-zero or cannot be located/executed" claim in its
cannot-be-located direction. -/
theorem transcode_missing_tool_counterexample :
    isTranscodeStageError
        (convert_video_to_audio
          (ToolOutcome.osError "FileNotFoundError: No such file or directory: ffmpeg")).1
        = false ∧
      (convert_video_to_audio
          (ToolOutcome.osError "FileNotFoundError: No such file or directory: ffmpeg")).1
        = PyResult.uncaught "FileNotFoundError: No such file or directory: ffmpeg" := by
  decide

/-- C4 (amended): the audio-extraction operation fails with the localized
transcode stage-failure `RuntimeError` exactly when the external tool runs
and exits non-zero; the generic localized message is then reported while
the tool's stderr goes only to the log.  When the tool cannot be located or
executed, the operating-system error instead propagates unhandled (reaching
the top-level handler with its raw text). -/
theorem transcode_error_amended (o : ToolOutcome) :
    (isTranscodeStageError (convert_video_to_audio o).1 = true ↔
        ∃ s, o = ToolOutcome.calledProcessError s) ∧
      (∀ s, o = ToolOutcome.calledProcessError s →
        convert_video_to_audio o
          = (.runtimeError transcodeFailMsg, ["FFmpeg error: " ++ s])) ∧
      (∀ e, o = ToolOutcome.osError e →
        (convert_video_to_audio o).1 = PyResult.uncaught e) := by
  cases o <;> simp [convert_video_to_audio, isTranscodeStageError]

/-- C4 witness: a concrete non-zero exit produces the localized stage
failure with the stderr recorded in the log lines. -/
theorem transcode_error_amended_witness :
    convert_video_to_audio (ToolOutcome.calledProcessError "no audio stream")
      = (.runtimeError transcodeFailMsg, ["FFmpeg error: no audio stream"]) :=
  (transcode_error_amended (ToolOutcome.calledProcessError "no audio stream")).2.1
    "no audio stream" rfl

/-- C5, counterexample: in a run whose only requested language fails to
translate, the collection of translation results is left without an entry
for that language.  This refutes "for every run, the collection contains
exactly one entry per requested language". -/
theorem translations_missing_entry_counterexample :
    (fan_out SUPPORTED_LANGUAGES (fun _ => CallOutcome.openaiError "network down")
        "text" ["Almanca"]).translations.map Prod.fst ≠ ["Almanca"] := by
  decide

/-- C5 (amended): for every run over distinct supported languages, the
collection of translation results holds exactly one entry for each language
of the longest prefix of successfully translated languages, in the caller's
requested order — in particular, when every translation succeeds it holds
exactly one entry per requested language in the requested order; a run
aborted by a translation failure is left without entries for the failing
and the remaining languages. -/
theorem translations_keys_amended (codes : List (String × String))
    (create : List ChatRequestMessage → CallOutcome) (tx : String)
    (langs : List String)
    (hkeys : ∀ l ∈ langs, (lookupDict codes l).isSome = true)
    (hnodup : langs.Nodup) :
    (fan_out codes create tx langs).translations.map Prod.fst
        = langs.takeWhile (langSucceeds create tx) ∧
      ((∀ l ∈ langs, langSucceeds create tx l = true) →
        (fan_out codes create tx langs).translations.map Prod.fst = langs) := by
  have h :=
    (translationsLoop_spec codes create tx langs [] [] hkeys hnodup (by simp)).1
  refine ⟨by simpa [fan_out] using h, fun hall => ?_⟩
  have h2 : (fan_out codes create tx langs).translations.map Prod.fst
      = langs.takeWhile (langSucceeds create tx) := by simpa [fan_out] using h
  rw [h2, List.takeWhile_eq_self_iff.mpr hall]

/-- C5 witness: with a remote endpoint failing exactly on the Almanca
request, a three-language run keeps exactly the entry for the language
translated before the failure, in order. -/
theorem translations_keys_amended_witness :
    (fan_out SUPPORTED_LANGUAGES
        (fun ms => if ms = requestMessages "text" "Almanca"
          then CallOutcome.openaiError "boom"
          else CallOutcome.response ⟨[⟨⟨"ok"⟩⟩]⟩)
        "text" ["Türkçe", "Almanca", "İngilizce"]).translations.map Prod.fst
      = ["Türkçe"] := by
  rw [(translations_keys_amended SUPPORTED_LANGUAGES
        (fun ms => if ms = requestMessages "text" "Almanca"
          then CallOutcome.openaiError "boom"
          else CallOutcome.response ⟨[⟨⟨"ok"⟩⟩]⟩)
        "text" ["Türkçe", "Almanca", "İngilizce"] (by decide) (by decide)).1]
  decide

/-- C6: the fingerprint is deterministic — identical byte content always
produces the identical digest (and every digest is a 32-character hex
string); `generate_file_hash` is a pure function of the bytes, its only
effect being the hash computation itself. -/
theorem generate_file_hash_deterministic (b₁ b₂ : List Nat) (h : b₁ = b₂) :
    generate_file_hash b₁ = generate_file_hash b₂ ∧
      (generate_file_hash b₁).length = 32 := by
  subst h
  exact ⟨rfl, generate_file_hash_data_length b₁⟩

/-- C6 witness: determinism and digest shape at a concrete byte input. -/
theorem generate_file_hash_deterministic_witness :
    generate_file_hash [99, 97, 116] = generate_file_hash [99, 97, 116] ∧
      (generate_file_hash [99, 97, 116]).length = 32 :=
  generate_file_hash_deterministic [99, 97, 116] [99, 97, 116] rfl

/-- C7: for every run and every outcome — completed, failed at any stage,
or an unexpected fault — the `finally` block computes the elapsed
wall-clock duration of the whole run and reports it to the caller. -/
theorem elapsed_reported_every_run (env : Env) :
    (runApp env).elapsed = env.endClock - env.startClock := by
  cases h : (stagesBody env ⟨some []⟩).1 <;>
    simp [runApp, pipelineBody, withTemporaryDirectory, h]

/-- C8: when the remote endpoint answers, `translate_text` returns the
first choice's message content verbatim — for every response and every
content string, without post-processing or locally enforced length
limits. -/
theorem translate_text_verbatim (create : List ChatRequestMessage → CallOutcome)
    (text target_lang : String) (r : ChatResponse) (c : ChatChoice)
    (rest : List ChatChoice)
    (hcall : create (requestMessages text target_lang) = CallOutcome.response r)
    (hchoices : r.choices = c :: rest) :
    translate_text create text target_lang = PyResult.ok c.message.content := by
  simp [translate_text, hcall, hchoices]

/-- C8 witness: a concrete response's first-choice content is returned
verbatim. -/
theorem translate_text_verbatim_witness :
    translate_text (fun _ => CallOutcome.response ⟨[⟨⟨"Bonjour le monde"⟩⟩]⟩)
      "Hello world" "Fransızça" = PyResult.ok "Bonjour le monde" :=
  translate_text_verbatim
    (fun _ => CallOutcome.response ⟨[⟨⟨"Bonjour le monde"⟩⟩]⟩)
    "Hello world" "Fransızça" ⟨[⟨⟨"Bonjour le monde"⟩⟩]⟩
    ⟨⟨"Bonjour le monde"⟩⟩ [] rfl rfl

/-- C9: filename sanitization is idempotent — applying `sanitize_filename`
to its own output returns that output unchanged, for every input string. -/
theorem sanitize_filename_idempotent (filename : String) :
    sanitize_filename (sanitize_filename filename) = sanitize_filename filename :=
  congrArg String.mk (sanitizeList_idem filename.data)

/-- C10: the ISO code looked up from `SUPPORTED_LANGUAGES` is bound but
never used: the fan-out's state is identical under any other mapping
defining the selected languages (so neither the translated output nor the
returned mapping depends on the code values), every argument passed to the
translate operation is one of the caller's display names, and every result
key is one of the caller's display names. -/
theorem translate_receives_display_name (codes₂ : List (String × String))
    (create : List ChatRequestMessage → CallOutcome) (tx : String)
    (langs : List String)
    (hkeys : ∀ l ∈ langs, (lookupDict SUPPORTED_LANGUAGES l).isSome = true)
    (hkeys₂ : ∀ l ∈ langs, (lookupDict codes₂ l).isSome = true)
    (hnodup : langs.Nodup) :
    fan_out SUPPORTED_LANGUAGES create tx langs = fan_out codes₂ create tx langs ∧
      (∀ l ∈ (fan_out SUPPORTED_LANGUAGES create tx langs).calls, l ∈ langs) ∧
      (∀ p ∈ (fan_out SUPPORTED_LANGUAGES create tx langs).translations,
        p.1 ∈ langs) := by
  refine ⟨?_, ?_, ?_⟩
  · exact translationsLoop_codes_invariant SUPPORTED_LANGUAGES codes₂ create tx
      langs [] [] (fun l hl => ⟨hkeys l hl, hkeys₂ l hl⟩)
  · obtain ⟨k, _, hc⟩ :=
      translationsLoop_calls_take SUPPORTED_LANGUAGES create tx langs [] []
    intro l hl
    rw [show (fan_out SUPPORTED_LANGUAGES create tx langs).calls = langs.take k
          from by simpa [fan_out] using hc] at hl
    exact List.mem_of_mem_take hl
  · have h := (translationsLoop_spec SUPPORTED_LANGUAGES create tx langs [] []
      hkeys hnodup (by simp)).1
    intro p hp
    have hmem : p.1 ∈ (fan_out SUPPORTED_LANGUAGES create tx
        langs).translations.map Prod.fst :=
      List.mem_map_of_mem Prod.fst hp
    rw [show (fan_out SUPPORTED_LANGUAGES create tx langs).translations.map Prod.fst
          = langs.takeWhile (langSucceeds create tx)
          from by simpa [fan_out] using h] at hmem
    exact takeWhile_mem hmem

/-- C10 witness: replacing every ISO code value by an arbitrary string
leaves a concrete fan-out state unchanged. -/
theorem translate_receives_display_name_witness :
    fan_out SUPPORTED_LANGUAGES
        (fun _ => CallOutcome.response ⟨[⟨⟨"ciao"⟩⟩]⟩) "hi" ["İtalyanca"]
      = fan_out [("İtalyanca", "SCRAMBLED")]
        (fun _ => CallOutcome.response ⟨[⟨⟨"ciao"⟩⟩]⟩) "hi" ["İtalyanca"] :=
  (translate_receives_display_name [("İtalyanca", "SCRAMBLED")]
    (fun _ => CallOutcome.response ⟨[⟨⟨"ciao"⟩⟩]⟩) "hi" ["İtalyanca"]
    (by decide) (by decide) (by decide)).1
